import Mathlib

/-!
Verification development for a WebRTC signaling relay and its process
supervisor.

The relay (`signaling/server.js`) keeps a single mutable `sender` slot and a
`viewers` set; each connection carries a per-connection `role` string
(initially `"unknown"`). Inbound frames are JSON-parsed; parse failures
return early. A `{type:"role"}` message overwrites the connection's role
and registers it; `offer` / `answer` / `ice-candidate` frames are relayed
according to the connection's role. The `close` handler clears the sender
slot (broadcasting a disconnect notification) and removes the connection
from the viewer set.

The supervisor (`controller.js`) tracks `signalingServer` and
`streamerProcess` child-process handles and serves `POST /start`,
`POST /stop`; `exit` / `error` events on the child reset the handle to
null.

Machine states are embedded as Lean structures; the event loop is a step
function over an event type, with traces run by a fold. Strings sent to a
connection are accumulated in a per-connection `sent` list, so "connection
X received message m" is "m was appended to `sent X`".
-/

abbrev ConnId := Nat

/-- The string `JSON.stringify({ type: 'sender-connected' })` as produced by the server. -/
def senderConnectedMsg : String := "\x7b\"type\":\"sender-connected\"\x7d"

/-- The string `JSON.stringify({ type: 'sender-disconnected' })` as produced by the server. -/
def senderDisconnectedMsg : String := "\x7b\"type\":\"sender-disconnected\"\x7d"

/-- An inbound frame: either it fails `JSON.parse` (`malformed`), or it
parses to an object whose `type` and `role` fields are `ty` and
`declaredRole`, with `raw` the original payload bytes. An absent or
non-string field behaves, for every comparison the server makes, like a
string different from all the literals compared against, so strings model
the fields faithfully. -/
inductive Incoming where
  | malformed (raw : String)
  | parsed (ty : String) (declaredRole : String) (raw : String)
deriving DecidableEq

/-- The relay's state: the module-level `sender` slot and `viewers` set of
`server.js`, the per-connection `role` closure variable, the transport
openness (`readyState === OPEN`) of each connection, the set of currently
attached connections, the set of ids ever used (for freshness), and the
outbox of messages the server sent to each connection. `viewers` is a
duplicate-free list in insertion order, matching a JS `Set`. -/
structure RelayState where
  used : List ConnId
  conns : List ConnId
  role : ConnId → String
  isOpen : ConnId → Bool
  sender : Option ConnId
  viewers : List ConnId
  sent : ConnId → List String

def initState : RelayState :=
  { used := [], conns := [], role := fun _ => "unknown", isOpen := fun _ => false,
    sender := none, viewers := [], sent := fun _ => [] }

/-- Model of `ws.send(msg)` on connection `c`: append to its outbox. -/
def sendTo (s : RelayState) (c : ConnId) (msg : String) : RelayState :=
  { s with sent := fun x => if x = c then s.sent x ++ [msg] else s.sent x }

/-- Model of `broadcastToViewers(msg)`: `for (const v of viewers) if (v.readyState === OPEN) v.send(msg)`. -/
def broadcastToViewers (s : RelayState) (msg : String) : RelayState :=
  { s with sent := fun x =>
      if x ∈ s.viewers ∧ s.isOpen x = true then s.sent x ++ [msg] else s.sent x }

/-- Model of `viewers.add(ws)`: JS `Set.add`, a no-op when already present,
else appended in insertion order. -/
def addViewer (vs : List ConnId) (c : ConnId) : List ConnId :=
  if c ∈ vs then vs else vs ++ [c]

/-- The test `sender?.readyState === WebSocket.OPEN`. -/
def senderOpen (s : RelayState) : Bool :=
  match s.sender with
  | some sc => s.isOpen sc
  | none => false

/-- Model of `sender.send(raw)` (only ever evaluated under `senderOpen`). -/
def sendToSender (s : RelayState) (raw : String) : RelayState :=
  match s.sender with
  | some sc => sendTo s sc raw
  | none => s

/-- The body of `ws.on('message', ...)` in `server.js`, for connection `c`.
`JSON.parse` failure returns early; a `role` message overwrites the
connection's role and registers it (sender: take the slot and broadcast
`sender-connected`; viewer: add to the set and send this connection a
presence notification chosen by `if (sender)`); otherwise the relay
if/else-if chain runs. -/
def handleMessage (s : RelayState) (c : ConnId) (m : Incoming) : RelayState :=
  match m with
  | .malformed _ => s
  | .parsed ty declaredRole raw =>
    if ty = "role" then
      let s1 : RelayState := { s with role := fun x => if x = c then declaredRole else s.role x }
      if declaredRole = "sender" then
        broadcastToViewers { s1 with sender := some c } senderConnectedMsg
      else if declaredRole = "viewer" then
        let s2 : RelayState := { s1 with viewers := addViewer s1.viewers c }
        if s2.sender.isSome then sendTo s2 c senderConnectedMsg
        else sendTo s2 c senderDisconnectedMsg
      else s1
    else if ty = "offer" ∧ s.role c = "viewer" ∧ senderOpen s = true then
      sendToSender s raw
    else if ty = "answer" ∧ s.role c = "sender" then
      broadcastToViewers s raw
    else if ty = "ice-candidate" then
      let sA := if s.role c = "viewer" ∧ senderOpen s = true then sendToSender s raw else s
      if s.role c = "sender" then broadcastToViewers sA raw else sA
    else s

/-- The body of `ws.on('close', ...)` in `server.js`, for connection `c`
(whose transport is already closed when the handler runs): if `c` holds the
sender slot, clear it and broadcast `sender-disconnected` to open viewers;
then `viewers.delete(ws)`. -/
def handleClose (s : RelayState) (c : ConnId) : RelayState :=
  let s1 := if s.sender = some c then
              broadcastToViewers { s with sender := none } senderDisconnectedMsg
            else s
  { s1 with viewers := s1.viewers.erase c }

/-- Transport-level loss of openness (`readyState` leaves `OPEN`); the
`close` event itself is dispatched later by the event loop. -/
def markConnClosed (s : RelayState) (c : ConnId) : RelayState :=
  { s with isOpen := fun x => if x = c then false else s.isOpen x }

/-- Events the relay's single-threaded loop processes: a new connection
(fresh id, role `"unknown"`), a message frame on an open connection, the
transport of a connection leaving the `OPEN` state, and the dispatch of a
connection's `close` event. -/
inductive Event where
  | connect (c : ConnId)
  | message (c : ConnId) (m : Incoming)
  | markClosed (c : ConnId)
  | close (c : ConnId)
deriving DecidableEq

/-- One step of the event loop; `none` when the event's guard fails (stale
id, message on a closed transport, ...). -/
def stepF (s : RelayState) (e : Event) : Option RelayState :=
  match e with
  | .connect c =>
    if c ∈ s.used then none else
      some { s with
        used := c :: s.used, conns := c :: s.conns,
        role := fun x => if x = c then "unknown" else s.role x,
        isOpen := fun x => if x = c then true else s.isOpen x }
  | .message c m =>
    if c ∈ s.conns ∧ s.isOpen c = true then some (handleMessage s c m) else none
  | .markClosed c =>
    if c ∈ s.conns ∧ s.isOpen c = true then some (markConnClosed s c) else none
  | .close c =>
    if c ∈ s.conns then
      some { handleClose (markConnClosed s c) c with conns := s.conns.erase c }
    else none

/-- Run a trace of events from the initial state. -/
def runTrace (evs : List Event) : Option RelayState :=
  evs.foldl (fun os e => os.bind fun s => stepF s e) (some initState)

/-- The connection id of a role-declaration message event, if `e` is one. -/
def declOf (e : Event) : Option ConnId :=
  match e with
  | .message c (.parsed ty _ _) => if ty = "role" then some c else none
  | _ => none

/-- A trace in which every connection sends at most one role-declaration
message. -/
def noRedecl (evs : List Event) : Prop := (evs.filterMap declOf).Nodup

instance (evs : List Event) : Decidable (noRedecl evs) :=
  inferInstanceAs (Decidable (evs.filterMap declOf).Nodup)

/-! ### The process supervisor (`controller.js`) -/

/-- The controller's response to a control request: `res.json({ ok, status })`. -/
structure CtrlResp where
  ok : Bool
  status : String
deriving DecidableEq

/-- The controller's state: the `signalingServer` and `streamerProcess`
child handles (`null` = not tracked as running), a fresh-pid counter, and a
count of `spawn` calls performed for the streamer. -/
structure ControllerState where
  signalingServer : Option Nat
  streamerProcess : Option Nat
  nextPid : Nat
  spawnCount : Nat
deriving DecidableEq

/-- Handler of `app.post('/start', ...)`: if a streamer is tracked, answer
`already-running` and spawn nothing; else spawn the streamer, track it, and
answer `started` (the response does not depend on whether the spawn will
later fail). -/
def handleStartReq (s : ControllerState) : ControllerState × CtrlResp :=
  match s.streamerProcess with
  | some _ => (s, ⟨true, "already-running"⟩)
  | none =>
    ({ s with streamerProcess := some s.nextPid, nextPid := s.nextPid + 1,
              spawnCount := s.spawnCount + 1 },
     ⟨true, "started"⟩)

/-- Handler of `app.post('/stop', ...)`: if no streamer is tracked, answer
`not-running`; else signal it (`SIGINT`), clear the handle, and answer
`stopping`. -/
def handleStopReq (s : ControllerState) : ControllerState × CtrlResp :=
  match s.streamerProcess with
  | none => (s, ⟨true, "not-running"⟩)
  | some _ => ({ s with streamerProcess := none }, ⟨true, "stopping"⟩)

/-- Handler of `streamerProcess.on('exit', ...)`: log and reset the handle. -/
def handleStreamerExit (s : ControllerState) (_code : Int) : ControllerState :=
  { s with streamerProcess := none }

/-- Handler of `streamerProcess.on('error', ...)`: log the spawn/runtime error and
reset the handle; no response is produced. -/
def handleStreamerError (s : ControllerState) : ControllerState :=
  { s with streamerProcess := none }

/-- Controller events: HTTP requests produce a response, child-process
events do not. -/
inductive CtrlEvent where
  | startReq
  | stopReq
  | streamerError
  | streamerExit (code : Int)
deriving DecidableEq

def ctrlStep (s : ControllerState) : CtrlEvent → ControllerState × Option CtrlResp
  | .startReq => ((handleStartReq s).1, some (handleStartReq s).2)
  | .stopReq => ((handleStopReq s).1, some (handleStopReq s).2)
  | .streamerError => (handleStreamerError s, none)
  | .streamerExit code => (handleStreamerExit s code, none)

/-! ### Invariants and concrete states -/

/-- The inductive registry invariant: every connection in the viewer set has
role `"viewer"`, the connection in the sender slot has role `"sender"`, and
registry/connection bookkeeping only mentions ids that have connected. -/
def RegInv (s : RelayState) : Prop :=
  (∀ c, c ∈ s.conns → c ∈ s.used) ∧
  (∀ c, c ∈ s.viewers → s.role c = "viewer" ∧ c ∈ s.used) ∧
  (∀ c, s.sender = some c → s.role c = "sender" ∧ c ∈ s.used)

/-- Every connection that still has a role-declaration message ahead of it in
the trace currently has role `"unknown"`. -/
def PendingUnknown (evs : List Event) (s : RelayState) : Prop :=
  ∀ c, c ∈ evs.filterMap declOf → s.role c = "unknown"

/-- A concrete relay state: connection 0 is an open sender, connection 1 an
open viewer, nothing sent yet. -/
def stateSV : RelayState :=
  { used := [1, 0], conns := [1, 0],
    role := fun x => if x = 0 then "sender" else if x = 1 then "viewer" else "unknown",
    isOpen := fun x => x == 0 || x == 1,
    sender := some 0, viewers := [1], sent := fun _ => [] }

/-- A concrete controller state: signaling relay tracked, no streamer. -/
def ctrl0 : ControllerState :=
  { signalingServer := some 0, streamerProcess := none, nextPid := 1, spawnCount := 0 }

/-- Trace: connection 3 declares viewer, then re-declares sender. -/
def trC1 : List Event :=
  [.connect 3, .message 3 (.parsed "role" "viewer" "v"),
   .message 3 (.parsed "role" "sender" "w")]

/-- Trace: one viewer and one sender join, each declaring exactly once. -/
def trC1w : List Event :=
  [.connect 0, .message 0 (.parsed "role" "viewer" "v"), .connect 1,
   .message 1 (.parsed "role" "sender" "w")]

/-- Trace: a sender joins, its transport leaves the open state (close event
not yet dispatched), then a viewer joins. -/
def trC2 : List Event :=
  [.connect 0, .message 0 (.parsed "role" "sender" "a"), .markClosed 0,
   .connect 1, .message 1 (.parsed "role" "viewer" "b")]

/-- Trace: connection 7 connects and declares viewer. -/
def trC3 : List Event := [.connect 7, .message 7 (.parsed "role" "viewer" "v")]

/-- Trace: connection 0 declares viewer then sender (so it is registered in
both slots), then connection 1 joins as a viewer. -/
def trC8 : List Event :=
  [.connect 0, .message 0 (.parsed "role" "viewer" "v"),
   .message 0 (.parsed "role" "sender" "w"),
   .connect 1, .message 1 (.parsed "role" "viewer" "v")]

/-! ### Projection lemmas -/

theorem sendTo_role (s : RelayState) (c : ConnId) (m : String) :
    (sendTo s c m).role = s.role := rfl

theorem sendTo_sender (s : RelayState) (c : ConnId) (m : String) :
    (sendTo s c m).sender = s.sender := rfl

theorem sendTo_viewers (s : RelayState) (c : ConnId) (m : String) :
    (sendTo s c m).viewers = s.viewers := rfl

theorem sendTo_used (s : RelayState) (c : ConnId) (m : String) :
    (sendTo s c m).used = s.used := rfl

theorem sendTo_conns (s : RelayState) (c : ConnId) (m : String) :
    (sendTo s c m).conns = s.conns := rfl

theorem sendTo_isOpen (s : RelayState) (c : ConnId) (m : String) :
    (sendTo s c m).isOpen = s.isOpen := rfl

theorem broadcast_role (s : RelayState) (m : String) :
    (broadcastToViewers s m).role = s.role := rfl

theorem broadcast_sender (s : RelayState) (m : String) :
    (broadcastToViewers s m).sender = s.sender := rfl

theorem broadcast_viewers (s : RelayState) (m : String) :
    (broadcastToViewers s m).viewers = s.viewers := rfl

theorem broadcast_used (s : RelayState) (m : String) :
    (broadcastToViewers s m).used = s.used := rfl

theorem broadcast_conns (s : RelayState) (m : String) :
    (broadcastToViewers s m).conns = s.conns := rfl

theorem broadcast_isOpen (s : RelayState) (m : String) :
    (broadcastToViewers s m).isOpen = s.isOpen := rfl

theorem sendToSender_registry (s : RelayState) (raw : String) :
    (sendToSender s raw).role = s.role ∧ (sendToSender s raw).sender = s.sender ∧
    (sendToSender s raw).viewers = s.viewers ∧ (sendToSender s raw).used = s.used ∧
    (sendToSender s raw).conns = s.conns ∧ (sendToSender s raw).isOpen = s.isOpen := by
  rcases hs : s.sender with _ | sc <;> simp [sendToSender, hs, sendTo]

/-- A non-`role` message leaves the registry (role map, sender slot,
viewer set) and the connection bookkeeping untouched: only outboxes change. -/
theorem handleMessage_nonrole_registry (s : RelayState) (c : ConnId)
    (ty declaredRole raw : String) (h : ty ≠ "role") :
    (handleMessage s c (.parsed ty declaredRole raw)).role = s.role ∧
    (handleMessage s c (.parsed ty declaredRole raw)).sender = s.sender ∧
    (handleMessage s c (.parsed ty declaredRole raw)).viewers = s.viewers ∧
    (handleMessage s c (.parsed ty declaredRole raw)).used = s.used ∧
    (handleMessage s c (.parsed ty declaredRole raw)).conns = s.conns ∧
    (handleMessage s c (.parsed ty declaredRole raw)).isOpen = s.isOpen := by
  simp only [handleMessage]
  rw [if_neg h]
  split_ifs <;>
    first
      | exact sendToSender_registry s raw
      | simp [broadcastToViewers, sendToSender_registry, sendToSender, sendTo]

/-- Role map after a role-declaration message: the declarer's role is
overwritten with the declared value, all other roles are untouched. -/
theorem handleMessage_role_decl (s : RelayState) (d : ConnId) (rv raw : String) (x : ConnId) :
    (handleMessage s d (.parsed "role" rv raw)).role x = if x = d then rv else s.role x := by
  by_cases h1 : rv = "sender"
  · subst h1; simp [handleMessage, broadcastToViewers]
  · by_cases h2 : rv = "viewer"
    · subst h2; rcases hs : s.sender with _ | sc <;> simp [handleMessage, hs, sendTo]
    · simp [handleMessage, h1, h2]

/-- An `answer` or `ice-candidate` frame from a sender-role connection runs
exactly the open-viewer broadcast on the raw payload. -/
theorem handleMessage_sender_relay (s : RelayState) (c : ConnId) (ty rv raw : String)
    (hty : ty = "answer" ∨ ty = "ice-candidate") (hrole : s.role c = "sender") :
    handleMessage s c (.parsed ty rv raw) = broadcastToViewers s raw := by
  rcases hty with h | h <;> subst h <;> simp [handleMessage, hrole]

/-- An `offer` or `ice-candidate` frame from a viewer-role connection is sent
to the sender exactly when the sender slot is filled with an open connection. -/
theorem handleMessage_viewer_relay (s : RelayState) (c : ConnId) (ty rv raw : String)
    (hty : ty = "offer" ∨ ty = "ice-candidate") (hrole : s.role c = "viewer") :
    (∀ sc, s.sender = some sc → s.isOpen sc = true →
      handleMessage s c (.parsed ty rv raw) = sendTo s sc raw) ∧
    (senderOpen s = false → handleMessage s c (.parsed ty rv raw) = s) := by
  constructor
  · intro sc hsc hop
    rcases hty with h | h <;> subst h <;>
      simp [handleMessage, hrole, senderOpen, hsc, hop, sendToSender]
  · intro hno
    rcases hty with h | h <;> subst h <;> simp [handleMessage, hrole, hno]

/-- Fields of the state reached by dispatching `close c`. -/
theorem stepF_close_fields (s s' : RelayState) (c : ConnId)
    (hstep : stepF s (.close c) = some s') :
    s'.role = s.role ∧ s'.used = s.used ∧ s'.conns = s.conns.erase c ∧
    s'.viewers = s.viewers.erase c ∧
    s'.sender = (if s.sender = some c then none else s.sender) := by
  have hmem : c ∈ s.conns := by
    by_contra hmem
    simp [stepF, hmem] at hstep
  by_cases hsc : s.sender = some c <;>
    · simp only [stepF, if_pos hmem, Option.some.injEq] at hstep
      subst hstep
      simp [handleClose, markConnClosed, broadcastToViewers, hsc]

/-- C7: an inbound frame that fails to parse is dropped silently: the relay
forwards nothing, sends no error to the originating connection, leaves the
registry (and the whole state) unchanged, and the connection stays open. -/
theorem C7_malformed_silently_dropped (s : RelayState) (c : ConnId) (raw : String) :
    handleMessage s c (.malformed raw) = s ∧
    (handleMessage s c (.malformed raw)).isOpen c = s.isOpen c ∧
    (∀ x, (handleMessage s c (.malformed raw)).sent x = s.sent x) :=
  ⟨rfl, rfl, fun _ => rfl⟩

/-- C6: a message whose type is inconsistent with the connection's role (an
`offer` from a sender, an `answer` from a viewer, or any non-declaration type
from a role-unknown connection) changes nothing at all: no forward, no error,
registry untouched. -/
theorem C6_role_mismatch_dropped (s : RelayState) (c : ConnId) (ty rv raw : String)
    (h : (ty = "offer" ∧ s.role c = "sender") ∨ (ty = "answer" ∧ s.role c = "viewer") ∨
      (s.role c = "unknown" ∧ ty ≠ "role")) :
    handleMessage s c (.parsed ty rv raw) = s := by
  rcases h with ⟨h1, h2⟩ | ⟨h1, h2⟩ | ⟨h2, h1⟩
  · subst h1; simp [handleMessage, h2]
  · subst h1; simp [handleMessage, h2]
  · simp only [handleMessage]
    rw [if_neg h1]
    simp [h2]

/-- Witness for C6 at a concrete input: an `offer` from the sender-role
connection 0 of `stateSV` is dropped with no state change. -/
theorem C6_witness :
    (("offer":String) = "offer" ∧ stateSV.role 0 = "sender") ∧
    handleMessage stateSV 0 (.parsed "offer" "x" "x") = stateSV :=
  ⟨⟨rfl, rfl⟩, C6_role_mismatch_dropped stateSV 0 "offer" "x" "x" (Or.inl ⟨rfl, rfl⟩)⟩

/-- C4: an `answer` or `ice-candidate` frame from a sender-role connection is
forwarded, byte-for-byte, to exactly those viewers in the viewer set whose
connection is currently open, and to no one else; the registry is untouched. -/
theorem C4_sender_answer_ice_broadcast (s : RelayState) (c : ConnId) (ty rv raw : String)
    (hty : ty = "answer" ∨ ty = "ice-candidate") (hrole : s.role c = "sender") :
    (∀ v, v ∈ s.viewers → s.isOpen v = true →
      (handleMessage s c (.parsed ty rv raw)).sent v = s.sent v ++ [raw]) ∧
    (∀ v, v ∉ s.viewers ∨ s.isOpen v = false →
      (handleMessage s c (.parsed ty rv raw)).sent v = s.sent v) ∧
    (handleMessage s c (.parsed ty rv raw)).sender = s.sender ∧
    (handleMessage s c (.parsed ty rv raw)).viewers = s.viewers ∧
    (handleMessage s c (.parsed ty rv raw)).role = s.role := by
  rw [handleMessage_sender_relay s c ty rv raw hty hrole]
  refine ⟨fun v hv hov => ?_, fun v hv => ?_, rfl, rfl, rfl⟩
  · simp [broadcastToViewers, hv, hov]
  · simp only [broadcastToViewers]
    rw [if_neg]
    rintro ⟨hmem, hop⟩
    rcases hv with hv | hv
    · exact hv hmem
    · rw [hv] at hop; cases hop

/-- Witness for C4 at a concrete input: an `answer` from sender 0 of
`stateSV` is appended to open viewer 1's outbox. -/
theorem C4_witness :
    (("answer":String) = "answer" ∨ ("answer":String) = "ice-candidate") ∧
    stateSV.role 0 = "sender" ∧ (1 : ConnId) ∈ stateSV.viewers ∧ stateSV.isOpen 1 = true ∧
    (handleMessage stateSV 0 (.parsed "answer" "x" "payload")).sent 1
      = stateSV.sent 1 ++ ["payload"] :=
  ⟨Or.inl rfl, rfl, by decide, by decide,
    (C4_sender_answer_ice_broadcast stateSV 0 "answer" "x" "payload" (Or.inl rfl) rfl).1 1
      (by decide) (by decide)⟩

/-- C5: an `offer` or `ice-candidate` frame from a viewer-role connection is
forwarded, byte-for-byte, to the current sender exactly when a current sender
exists and its connection is open; otherwise the message is skipped entirely
(no retry, no error to the originator), and the registry is untouched either
way. -/
theorem C5_viewer_offer_ice_to_sender (s : RelayState) (c : ConnId) (ty rv raw : String)
    (hty : ty = "offer" ∨ ty = "ice-candidate") (hrole : s.role c = "viewer") :
    (∀ sc, s.sender = some sc → s.isOpen sc = true →
      (handleMessage s c (.parsed ty rv raw)).sent sc = s.sent sc ++ [raw] ∧
      (∀ x, x ≠ sc → (handleMessage s c (.parsed ty rv raw)).sent x = s.sent x)) ∧
    (senderOpen s = false → handleMessage s c (.parsed ty rv raw) = s) ∧
    (handleMessage s c (.parsed ty rv raw)).sender = s.sender ∧
    (handleMessage s c (.parsed ty rv raw)).viewers = s.viewers ∧
    (handleMessage s c (.parsed ty rv raw)).role = s.role := by
  have hne : ty ≠ "role" := by rcases hty with h | h <;> subst h <;> decide
  obtain ⟨hr, hsend, hv, -, -, -⟩ := handleMessage_nonrole_registry s c ty rv raw hne
  obtain ⟨hfwd, hskip⟩ := handleMessage_viewer_relay s c ty rv raw hty hrole
  refine ⟨fun sc hsc hop => ?_, hskip, hsend, hv, hr⟩
  rw [hfwd sc hsc hop]
  exact ⟨by simp [sendTo], fun x hx => by simp [sendTo, hx]⟩

/-- Witness for C5 at a concrete input: an `offer` from viewer 1 of `stateSV`
is appended to sender 0's outbox. -/
theorem C5_witness :
    (("offer":String) = "offer" ∨ ("offer":String) = "ice-candidate") ∧
    stateSV.role 1 = "viewer" ∧ stateSV.sender = some 0 ∧ stateSV.isOpen 0 = true ∧
    (handleMessage stateSV 1 (.parsed "offer" "x" "sdp")).sent 0 = stateSV.sent 0 ++ ["sdp"] :=
  ⟨Or.inl rfl, rfl, rfl, by decide,
    ((C5_viewer_offer_ice_to_sender stateSV 1 "offer" "x" "sdp" (Or.inl rfl) rfl).1 0 rfl
      (by decide)).1⟩

/-- C2 (amended): on a viewer role-declaration the relay sends, to that
connection only, exactly one notification, chosen by whether the sender slot
is non-empty — `sender-connected` if `currentSender()` is non-empty
(regardless of whether that connection is still open), else
`sender-disconnected`. -/
theorem C2_viewer_join_notification (s : RelayState) (c : ConnId) (raw : String) :
    (handleMessage s c (.parsed "role" "viewer" raw)).sent c
      = s.sent c ++ [if s.sender.isSome then senderConnectedMsg else senderDisconnectedMsg] ∧
    (∀ x, x ≠ c → (handleMessage s c (.parsed "role" "viewer" raw)).sent x = s.sent x) := by
  constructor
  · rcases hs : s.sender with _ | sc <;> simp [handleMessage, hs, sendTo]
  · intro x hx
    rcases hs : s.sender with _ | sc <;> simp [handleMessage, hs, sendTo, hx]

/-- Witness for C2 at a concrete input: connection 2 declaring viewer in
`stateSV` (whose sender slot is filled) receives exactly `sender-connected`,
and the existing viewer 1 receives nothing. -/
theorem C2_witness :
    (handleMessage stateSV 2 (.parsed "role" "viewer" "r")).sent 2
      = stateSV.sent 2 ++ [senderConnectedMsg] ∧
    (handleMessage stateSV 2 (.parsed "role" "viewer" "r")).sent 1 = stateSV.sent 1 :=
  ⟨by simpa using (C2_viewer_join_notification stateSV 2 "r").1,
   (C2_viewer_join_notification stateSV 2 "r").2 1 (by decide)⟩

/-- C2 counterexample: after `trC2`, the sender slot is non-empty but the
sender's transport is not open, and the joining viewer 1 was sent
`sender-connected` — the claim requires `sender-disconnected` whenever the
sender connection is not open. -/
theorem C2_cex :
    ∃ s, runTrace trC2 = some s ∧ s.sender = some 0 ∧ s.isOpen 0 = false ∧
      s.sent 1 = [senderConnectedMsg] :=
  ⟨_, rfl, rfl, rfl, rfl⟩

/-- C3 (amended): a further role-declaration on an already-role-bound
connection is processed exactly like a first one — the connection's role is
overwritten with the newly declared value, a `sender` declaration rebinds the
sender slot to this connection, and a `viewer` declaration re-runs the
idempotent viewer registration (so only a repeat of the same `viewer` role
leaves the role and registry unchanged). -/
theorem C3_redeclaration_reprocessed (s : RelayState) (c : ConnId) (rv raw : String)
    (hbound : s.role c = "sender" ∨ s.role c = "viewer") :
    (handleMessage s c (.parsed "role" rv raw)).role c = rv ∧
    (rv = "sender" → (handleMessage s c (.parsed "role" rv raw)).sender = some c ∧
      (handleMessage s c (.parsed "role" rv raw)).viewers = s.viewers) ∧
    (rv = "viewer" → (handleMessage s c (.parsed "role" rv raw)).sender = s.sender ∧
      (handleMessage s c (.parsed "role" rv raw)).viewers = addViewer s.viewers c ∧
      (c ∈ s.viewers → (handleMessage s c (.parsed "role" rv raw)).viewers = s.viewers)) := by
  refine ⟨by simpa using handleMessage_role_decl s c rv raw c, fun hrv => ?_, fun hrv => ?_⟩
  · subst hrv; simp [handleMessage, broadcastToViewers]
  · subst hrv
    have h2 : (handleMessage s c (.parsed "role" "viewer" raw)).viewers
        = addViewer s.viewers c := by
      rcases hs : s.sender with _ | sc <;> simp [handleMessage, hs, sendTo]
    refine ⟨?_, h2, fun hmem => by rw [h2, addViewer, if_pos hmem]⟩
    rcases hs : s.sender with _ | sc <;> simp [handleMessage, hs, sendTo]

/-- Witness for C3 at a concrete input: connection 1 of `stateSV` is bound to
`viewer`; a second declaration with role `sender` overwrites its role and
rebinds the sender slot to it. -/
theorem C3_witness :
    (stateSV.role 1 = "sender" ∨ stateSV.role 1 = "viewer") ∧
    (handleMessage stateSV 1 (.parsed "role" "sender" "r")).role 1 = "sender" ∧
    (handleMessage stateSV 1 (.parsed "role" "sender" "r")).sender = some 1 :=
  ⟨Or.inr rfl,
   (C3_redeclaration_reprocessed stateSV 1 "sender" "r" (Or.inr rfl)).1,
   ((C3_redeclaration_reprocessed stateSV 1 "sender" "r" (Or.inr rfl)).2.1 rfl).1⟩

/-- C3 counterexample: after `trC3` connection 7 is role-bound to `viewer`
with an empty sender slot; processing a further role-declaration (role
`sender`) changes both its role and the registry, so the role is not
immutable and the redeclaration is not a no-op. -/
theorem C3_cex :
    ∃ s s', runTrace trC3 = some s ∧ s.role 7 = "viewer" ∧ s.sender = none ∧
      stepF s (.message 7 (.parsed "role" "sender" "w")) = some s' ∧
      s'.role 7 = "sender" ∧ s'.sender = some 7 :=
  ⟨_, _, rfl, rfl, rfl, rfl, rfl, rfl⟩

/-- C8 (amended): when a connection's close event is dispatched — if it holds
the sender slot, the slot is cleared, every *other* currently open viewer
receives exactly one `sender-disconnected`, and the connection is also
removed from the viewer set if present; if it is a registered viewer and not
the current sender, it is removed from the viewer set and no notification is
sent to anyone; if it is neither the current sender nor a registered viewer
(in particular, a connection that never declared a role), the registry and
all outboxes are unchanged. -/
theorem C8_close_behavior (s s' : RelayState) (c : ConnId)
    (hstep : stepF s (.close c) = some s') :
    (s.sender = some c →
      s'.sender = none ∧ s'.viewers = s.viewers.erase c ∧
      (∀ v, v ∈ s.viewers → v ≠ c → s.isOpen v = true →
        s'.sent v = s.sent v ++ [senderDisconnectedMsg]) ∧
      (∀ v, v ∉ s.viewers ∨ s.isOpen v = false ∨ v = c → s'.sent v = s.sent v)) ∧
    (s.sender ≠ some c → c ∈ s.viewers →
      s'.sender = s.sender ∧ s'.viewers = s.viewers.erase c ∧ s'.role = s.role ∧
      (∀ x, s'.sent x = s.sent x)) ∧
    (s.sender ≠ some c → c ∉ s.viewers →
      s'.sender = s.sender ∧ s'.viewers = s.viewers ∧ s'.role = s.role ∧
      (∀ x, s'.sent x = s.sent x)) := by
  have hmem : c ∈ s.conns := by
    by_contra hmem
    simp [stepF, hmem] at hstep
  simp only [stepF, if_pos hmem, Option.some.injEq] at hstep
  subst hstep
  refine ⟨fun hsc => ?_, fun hsc hcv => ?_, fun hsc hcv => ?_⟩
  · refine ⟨by simp [handleClose, markConnClosed, broadcastToViewers, hsc],
      by simp [handleClose, markConnClosed, broadcastToViewers, hsc], ?_, ?_⟩
    · intro v hv hvc hov
      simp [handleClose, markConnClosed, broadcastToViewers, hsc, hv, hvc, hov]
    · intro v hv
      rcases hv with hv | hv | hv <;>
        simp [handleClose, markConnClosed, broadcastToViewers, hsc, hv]
  · exact ⟨by simp [handleClose, markConnClosed, broadcastToViewers, hsc],
      by simp [handleClose, markConnClosed, broadcastToViewers, hsc],
      by simp [handleClose, markConnClosed, broadcastToViewers, hsc],
      fun x => by simp [handleClose, markConnClosed, broadcastToViewers, hsc]⟩
  · exact ⟨by simp [handleClose, markConnClosed, broadcastToViewers, hsc],
      by simp [handleClose, markConnClosed, broadcastToViewers, hsc, List.erase_of_not_mem hcv],
      by simp [handleClose, markConnClosed, broadcastToViewers, hsc],
      fun x => by simp [handleClose, markConnClosed, broadcastToViewers, hsc]⟩

/-- Witness for C8 at a concrete input: closing sender 0 of `stateSV` clears
the slot and sends open viewer 1 exactly one `sender-disconnected`. -/
theorem C8_witness :
    stateSV.sender = some 0 ∧
    ((stepF stateSV (.close 0)).getD initState).sender = none ∧
    ((stepF stateSV (.close 0)).getD initState).sent 1
      = stateSV.sent 1 ++ [senderDisconnectedMsg] :=
  ⟨rfl,
   ((C8_close_behavior stateSV ((stepF stateSV (.close 0)).getD initState) 0 rfl).1 rfl).1,
   ((C8_close_behavior stateSV ((stepF stateSV (.close 0)).getD initState) 0 rfl).1 rfl).2.2.1 1
     (by decide) (by decide) (by decide)⟩

/-- C8 counterexample: after `trC8` connection 0 is a registered viewer (and
also holds the sender slot); dispatching its close event sends viewer 1 a
`sender-disconnected` notification, contradicting "if it is a registered
viewer ... no notification is sent to anyone". -/
theorem C8_cex :
    ∃ s s', runTrace trC8 = some s ∧ 0 ∈ s.viewers ∧
      stepF s (.close 0) = some s' ∧
      s'.sent 1 = s.sent 1 ++ [senderDisconnectedMsg] :=
  ⟨_, _, rfl, by decide, rfl, rfl⟩

/-- Membership in the result of `addViewer`. -/
theorem mem_addViewer (vs : List ConnId) (c x : ConnId) :
    x ∈ addViewer vs c ↔ x ∈ vs ∨ x = c := by
  unfold addViewer
  split_ifs with h
  · constructor
    · exact Or.inl
    · rintro (hx | rfl)
      · exact hx
      · exact h
  · simp [List.mem_append]

/-- Folding the event loop from `none` stays `none`. -/
theorem runFold_none (evs : List Event) :
    evs.foldl (fun os e => os.bind fun s => stepF s e) none = none := by
  induction evs with
  | nil => rfl
  | cons e evs ih => simpa using ih

/-- One step preserves `RegInv`, provided a role-declaration is only
processed for a connection whose role is still `"unknown"`. -/
theorem stepF_preserves_RegInv (s s' : RelayState) (e : Event)
    (hInv : RegInv s) (hdecl : ∀ c, declOf e = some c → s.role c = "unknown")
    (hstep : stepF s e = some s') : RegInv s' := by
  obtain ⟨hconns, hview, hsend⟩ := hInv
  cases e with
  | connect c =>
    have hused : c ∉ s.used := by
      by_contra hused
      simp [stepF, hused] at hstep
    simp only [stepF, if_neg hused, Option.some.injEq] at hstep
    subst hstep
    refine ⟨fun x hx => ?_, fun x hx => ?_, fun x hx => ?_⟩
    · rcases List.mem_cons.mp hx with h | h
      · simp [h]
      · simp [List.mem_cons, hconns x h]
    · have hxin := hview x hx
      have hxc : x ≠ c := fun h => hused (h ▸ hxin.2)
      simp [hxc, hxin.1, List.mem_cons, hxin.2]
    · have hxin := hsend x hx
      have hxc : x ≠ c := fun h => hused (h ▸ hxin.2)
      simp [hxc, hxin.1, List.mem_cons, hxin.2]
  | message c m =>
    have hguard : c ∈ s.conns ∧ s.isOpen c = true := by
      by_contra hguard
      simp only [stepF, if_neg hguard] at hstep
      cases hstep
    simp only [stepF, if_pos hguard, Option.some.injEq] at hstep
    subst hstep
    have hcu : c ∈ s.used := hconns c hguard.1
    cases m with
    | malformed raw => exact ⟨hconns, hview, hsend⟩
    | parsed ty rv raw =>
      by_cases hty : ty = "role"
      · subst hty
        have hunk : s.role c = "unknown" := hdecl c (by simp [declOf])
        have hcv : c ∉ s.viewers := fun hmem =>
          absurd ((hview c hmem).1.symm.trans hunk) (by decide)
        have hcs : s.sender ≠ some c := fun hmem =>
          absurd ((hsend c hmem).1.symm.trans hunk) (by decide)
        have hrole := handleMessage_role_decl s c rv raw
        by_cases h1 : rv = "sender"
        · subst h1
          have hfields :
              (handleMessage s c (.parsed "role" "sender" raw)).sender = some c ∧
              (handleMessage s c (.parsed "role" "sender" raw)).viewers = s.viewers ∧
              (handleMessage s c (.parsed "role" "sender" raw)).used = s.used ∧
              (handleMessage s c (.parsed "role" "sender" raw)).conns = s.conns := by
            simp [handleMessage, broadcastToViewers]
          obtain ⟨hf1, hf2, hf3, hf4⟩ := hfields
          refine ⟨fun x hx => ?_, fun x hx => ?_, fun x hx => ?_⟩
          · rw [hf4] at hx; rw [hf3]; exact hconns x hx
          · rw [hf2] at hx
            have hxc : x ≠ c := fun h => hcv (h ▸ hx)
            rw [hrole x, if_neg hxc, hf3]
            exact hview x hx
          · rw [hf1] at hx
            injection hx with hx
            subst hx
            rw [hrole c, if_pos rfl, hf3]
            exact ⟨rfl, hcu⟩
        · by_cases h2 : rv = "viewer"
          · subst h2
            have hfields :
                (handleMessage s c (.parsed "role" "viewer" raw)).sender = s.sender ∧
                (handleMessage s c (.parsed "role" "viewer" raw)).viewers
                  = addViewer s.viewers c ∧
                (handleMessage s c (.parsed "role" "viewer" raw)).used = s.used ∧
                (handleMessage s c (.parsed "role" "viewer" raw)).conns = s.conns := by
              rcases hs : s.sender with _ | sc <;> simp [handleMessage, hs, sendTo]
            obtain ⟨hf1, hf2, hf3, hf4⟩ := hfields
            refine ⟨fun x hx => ?_, fun x hx => ?_, fun x hx => ?_⟩
            · rw [hf4] at hx; rw [hf3]; exact hconns x hx
            · rw [hf2] at hx
              rw [hrole x, hf3]
              rcases (mem_addViewer s.viewers c x).mp hx with hx' | hx'
              · have hxc : x ≠ c := fun h => hcv (h ▸ hx')
                rw [if_neg hxc]
                exact hview x hx'
              · subst hx'
                rw [if_pos rfl]
                exact ⟨rfl, hcu⟩
            · rw [hf1] at hx
              have hxc : x ≠ c := fun h => hcs (h ▸ hx)
              rw [hrole x, if_neg hxc, hf3]
              exact hsend x hx
          · have hfields :
                (handleMessage s c (.parsed "role" rv raw)).sender = s.sender ∧
                (handleMessage s c (.parsed "role" rv raw)).viewers = s.viewers ∧
                (handleMessage s c (.parsed "role" rv raw)).used = s.used ∧
                (handleMessage s c (.parsed "role" rv raw)).conns = s.conns := by
              simp [handleMessage, h1, h2]
            obtain ⟨hf1, hf2, hf3, hf4⟩ := hfields
            refine ⟨fun x hx => ?_, fun x hx => ?_, fun x hx => ?_⟩
            · rw [hf4] at hx; rw [hf3]; exact hconns x hx
            · rw [hf2] at hx
              have hxc : x ≠ c := fun h => hcv (h ▸ hx)
              rw [hrole x, if_neg hxc, hf3]
              exact hview x hx
            · rw [hf1] at hx
              have hxc : x ≠ c := fun h => hcs (h ▸ hx)
              rw [hrole x, if_neg hxc, hf3]
              exact hsend x hx
      · obtain ⟨hr, hsd, hv, hu, hc, -⟩ := handleMessage_nonrole_registry s c ty rv raw hty
        unfold RegInv
        simp only [hr, hsd, hv, hu, hc]
        exact ⟨hconns, hview, hsend⟩
  | markClosed c =>
    have hguard : c ∈ s.conns ∧ s.isOpen c = true := by
      by_contra hguard
      simp only [stepF, if_neg hguard] at hstep
      cases hstep
    simp only [stepF, if_pos hguard, Option.some.injEq] at hstep
    subst hstep
    exact ⟨hconns, hview, hsend⟩
  | close c =>
    obtain ⟨hr, hu, hc, hv, hsd⟩ := stepF_close_fields s s' c hstep
    unfold RegInv
    simp only [hr, hu, hc, hv, hsd]
    refine ⟨fun x hx => hconns x (List.mem_of_mem_erase hx),
      fun x hx => hview x (List.mem_of_mem_erase hx), fun x hx => ?_⟩
    by_cases hsc : s.sender = some c
    · rw [if_pos hsc] at hx; cases hx
    · rw [if_neg hsc] at hx; exact hsend x hx

/-- Role maps change only at connect events and role-declarations; in a trace
whose remaining declarations are each by a connection not declaring in the
processed event, "pending declarers are still role-unknown" is preserved. -/
theorem pendingUnknown_preserved (e : Event) (evs : List Event) (s s' : RelayState)
    (hstep : stepF s e = some s')
    (hpend : PendingUnknown (e :: evs) s)
    (hnodup : ((e :: evs).filterMap declOf).Nodup) :
    PendingUnknown evs s' := by
  intro x hx
  have hxunk : s.role x = "unknown" := by
    refine hpend x ?_
    rcases hde : declOf e with _ | d <;> simp [List.filterMap_cons, hde, hx]
  cases e with
  | connect d =>
    have hused : d ∉ s.used := by
      by_contra hused
      simp [stepF, hused] at hstep
    simp only [stepF, if_neg hused, Option.some.injEq] at hstep
    subst hstep
    by_cases hxd : x = d <;> simp [hxd, hxunk]
  | message d m =>
    have hguard : d ∈ s.conns ∧ s.isOpen d = true := by
      by_contra hguard
      simp only [stepF, if_neg hguard] at hstep
      cases hstep
    simp only [stepF, if_pos hguard, Option.some.injEq] at hstep
    subst hstep
    cases m with
    | malformed raw => exact hxunk
    | parsed ty rv raw =>
      by_cases hty : ty = "role"
      · subst hty
        have hxd : x ≠ d := by
          intro h
          subst h
          have : declOf (.message x (.parsed "role" rv raw)) = some x := by simp [declOf]
          rw [List.filterMap_cons, this] at hnodup
          exact (List.nodup_cons.mp hnodup).1 hx
        rw [handleMessage_role_decl s d rv raw x, if_neg hxd]
        exact hxunk
      · rw [(handleMessage_nonrole_registry s d ty rv raw hty).1]
        exact hxunk
  | markClosed d =>
    have hguard : d ∈ s.conns ∧ s.isOpen d = true := by
      by_contra hguard
      simp only [stepF, if_neg hguard] at hstep
      cases hstep
    simp only [stepF, if_pos hguard, Option.some.injEq] at hstep
    subst hstep
    exact hxunk
  | close d =>
    rw [(stepF_close_fields s s' d hstep).1]
    exact hxunk

/-- Running a declaration-duplicate-free trace from a state satisfying the
registry invariant (with pending declarers unknown) lands in a state
satisfying the registry invariant. -/
theorem runFrom_RegInv (evs : List Event) :
    ∀ (s0 s : RelayState), RegInv s0 → PendingUnknown evs s0 →
      (evs.filterMap declOf).Nodup →
      evs.foldl (fun os e => os.bind fun s => stepF s e) (some s0) = some s →
      RegInv s := by
  induction evs with
  | nil =>
    intro s0 s hInv _ _ hrun
    cases hrun
    exact hInv
  | cons e evs ih =>
    intro s0 s hInv hpend hnodup hrun
    rw [List.foldl_cons] at hrun
    replace hrun :
        evs.foldl (fun os e => os.bind fun s => stepF s e) (stepF s0 e) = some s := hrun
    rcases hstep : stepF s0 e with _ | s1
    · rw [hstep, runFold_none] at hrun
      cases hrun
    · rw [hstep] at hrun
      have hdecl : ∀ c, declOf e = some c → s0.role c = "unknown" := by
        intro c hc
        exact hpend c (by simp [List.filterMap_cons, hc])
      have htail : (evs.filterMap declOf).Nodup := by
        rcases hde : declOf e with _ | d <;> rw [List.filterMap_cons, hde] at hnodup
        · exact hnodup
        · exact (List.nodup_cons.mp hnodup).2
      exact ih s1 s (stepF_preserves_RegInv s0 s1 e hInv hdecl hstep)
        (pendingUnknown_preserved e evs s0 s1 hstep hpend hnodup) htail hrun

/-- C1 (amended): in every state reached by a trace in which each connection
sends at most one role-declaration message, the sender slot holds at most one
connection, no connection appears simultaneously in the sender slot and the
viewer set, and connections whose role is `"unknown"` appear in neither.
(Re-declaring a role can break the last two parts, see the counterexample.) -/
theorem C1_registry_invariant (evs : List Event) (s : RelayState)
    (hnr : noRedecl evs) (hrun : runTrace evs = some s) :
    (∀ a b, s.sender = some a → s.sender = some b → a = b) ∧
    (∀ c, s.sender = some c → c ∉ s.viewers) ∧
    (∀ c, s.role c = "unknown" → s.sender ≠ some c ∧ c ∉ s.viewers) := by
  have hInv : RegInv s := by
    refine runFrom_RegInv evs initState s ?_ (fun c _ => rfl) hnr hrun
    refine ⟨?_, ?_, ?_⟩ <;> intro c hc <;> simp [initState] at hc
  obtain ⟨-, hview, hsend⟩ := hInv
  refine ⟨fun a b ha hb => ?_, fun c hc hmem => ?_, fun c hunk => ⟨fun hc => ?_, fun hmem => ?_⟩⟩
  · rw [ha] at hb
    injection hb
  · exact absurd ((hsend c hc).1.symm.trans (hview c hmem).1) (by decide)
  · exact absurd ((hsend c hc).1.symm.trans hunk) (by decide)
  · exact absurd ((hview c hmem).1.symm.trans hunk) (by decide)

/-- Witness for C1 at a concrete input: the declaration-duplicate-free trace
`trC1w` (one viewer, one sender) satisfies the amended invariant. -/
theorem C1_witness :
    noRedecl trC1w ∧
    (∀ c, ((runTrace trC1w).getD initState).sender = some c →
      c ∉ ((runTrace trC1w).getD initState).viewers) :=
  ⟨by decide,
   (C1_registry_invariant trC1w ((runTrace trC1w).getD initState) (by decide) rfl).2.1⟩

/-- C1 counterexample: after `trC1` (connection 3 declares viewer, then
sender) the reachable state has connection 3 simultaneously in the sender
slot and in the viewer set, refuting the claimed disjointness invariant. -/
theorem C1_cex :
    ∃ s, runTrace trC1 = some s ∧ s.sender = some 3 ∧ 3 ∈ s.viewers :=
  ⟨_, rfl, rfl, by decide⟩

/-- C9: `POST /start` when the streamer is already tracked as running spawns
nothing and answers `already-running`; from a stopped state, two consecutive
start requests perform exactly one spawn, leave exactly one tracked process,
and answer `started` then `already-running`. -/
theorem C9_start_idempotent (s : ControllerState) :
    (∀ p, s.streamerProcess = some p →
      handleStartReq s = (s, ⟨true, "already-running"⟩)) ∧
    (s.streamerProcess = none →
      (handleStartReq s).2 = ⟨true, "started"⟩ ∧
      (handleStartReq s).1.streamerProcess = some s.nextPid ∧
      (handleStartReq s).1.spawnCount = s.spawnCount + 1 ∧
      handleStartReq (handleStartReq s).1
        = ((handleStartReq s).1, ⟨true, "already-running"⟩)) := by
  constructor
  · intro p hp
    simp [handleStartReq, hp]
  · intro h
    simp [handleStartReq, h]

/-- Witness for C9 at a concrete input: two starts from `ctrl0`. -/
theorem C9_witness :
    ctrl0.streamerProcess = none ∧
    (handleStartReq ctrl0).2 = ⟨true, "started"⟩ ∧
    handleStartReq (handleStartReq ctrl0).1
      = ((handleStartReq ctrl0).1, ⟨true, "already-running"⟩) ∧
    (handleStartReq ctrl0).1.spawnCount = ctrl0.spawnCount + 1 :=
  ⟨rfl, ((C9_start_idempotent ctrl0).2 rfl).1, ((C9_start_idempotent ctrl0).2 rfl).2.2.2,
   ((C9_start_idempotent ctrl0).2 rfl).2.2.1⟩

/-- C10: from a stopped state, a start request answers
`{ok := true, status := "started"}` unconditionally; a subsequent spawn
failure (`error` event) produces no response at all and only resets the
tracked process to stopped — the failure is never reflected in the start
response. -/
theorem C10_spawn_failure_not_in_response (s : ControllerState)
    (h : s.streamerProcess = none) :
    (ctrlStep s .startReq).2 = some ⟨true, "started"⟩ ∧
    (ctrlStep (ctrlStep s .startReq).1 .streamerError).2 = none ∧
    (ctrlStep (ctrlStep s .startReq).1 .streamerError).1.streamerProcess = none ∧
    (ctrlStep (ctrlStep s .startReq).1 .streamerError).1.spawnCount = s.spawnCount + 1 := by
  simp [ctrlStep, handleStartReq, handleStreamerError, h]

/-- Witness for C10 at a concrete input: start from `ctrl0`, then the spawn
fails. -/
theorem C10_witness :
    ctrl0.streamerProcess = none ∧
    (ctrlStep ctrl0 .startReq).2 = some ⟨true, "started"⟩ ∧
    (ctrlStep (ctrlStep ctrl0 .startReq).1 .streamerError).1.streamerProcess = none :=
  ⟨rfl, (C10_spawn_failure_not_in_response ctrl0 rfl).1,
   (C10_spawn_failure_not_in_response ctrl0 rfl).2.2.1⟩
